import Mathlib

/-!
heketi, `apps/glusterfs/app.go`: application bootstrap and authorization gate.

A shallow embedding of `app.go` (package `glusterfs`): the constructor `NewApp`,
`App.setAdvSettings`, `App.SetRoutes`, `App.Close`, `App.Hello` and the middleware
`App.Auth`, followed by theorems about them.

Conventions of the embedding.

* Go package-level variables (`dbfilename`, `BrickMaxNum`, `BrickMaxSize`,
  `BrickMinSize`), the files on disk and the logger output are fields of an explicit
  `World` that every stateful function takes and returns.
* A Go pointer or interface that may be `nil` is an `Option`; a function returning
  `*App` returns `Option App`.
* A Go run-time panic is the `error` branch of `Except Panic`.
* Go `int` values are `Int`; `uint64` values are `Nat` with every operation reduced
  modulo `2^64`.
* The libraries `bolt`, `net/http`, `gorilla/context` and `gorilla/mux` are modelled by
  the small part of their documented behaviour that `app.go` relies on.
-/

namespace glusterfs

/-! ## Constants (app.go, lines 35-42) -/

def ASYNC_ROUTE : String := "/queue"
def BOLTDB_BUCKET_CLUSTER : String := "CLUSTER"
def BOLTDB_BUCKET_NODE : String := "NODE"
def BOLTDB_BUCKET_VOLUME : String := "VOLUME"
def BOLTDB_BUCKET_DEVICE : String := "DEVICE"
def BOLTDB_BUCKET_BRICK : String := "BRICK"

/-! ## Machine integers -/

/-- Two to the power 64, the modulus of Go `uint64` arithmetic. -/
def twoPow64 : Nat := 18446744073709551616

/-- Go conversion `uint64(v)` of an `int`: the value modulo `2^64`. -/
def uint64 (v : Int) : Nat := (v % (twoPow64 : Int)).toNat

/-- Go `uint64` multiplication, wrapping modulo `2^64`. -/
def mulU64 (a b : Nat) : Nat := (a * b) % twoPow64

/-! ## Logger -/

inductive LogLevel where
  | info
  | error
  deriving DecidableEq, Repr

structure LogEntry where
  level : LogLevel
  msg : String
  deriving DecidableEq, Repr

/-! ## bolt: the single-file key-value store -/

/-- A bucket's contents: key/value pairs. -/
abbrev Bucket := List (String × String)

/-- The top-level buckets of a database, by name. -/
abbrev Buckets := List (String × Bucket)

inductive BoltError where
  | ErrTimeout
  | ErrInvalid
  | ErrDatabaseNotOpen
  | ErrTxNotWritable
  | ErrBucketNameRequired
  deriving DecidableEq, Repr

/-- A database file on disk: its buckets, whether some open handle holds the exclusive
file lock, and whether the file can be read as a bolt database. -/
structure DBFile where
  buckets : Buckets
  locked : Bool
  valid : Bool
  deriving DecidableEq, Repr

/-- The files on disk, by path; `none` when no file exists at the path. -/
abbrev Disk := String → Option DBFile

def Disk.write (d : Disk) (path : String) (f : DBFile) : Disk :=
  fun q => if q = path then some f else d q

/-- A `*bolt.DB` handle: it refers to the file it was opened on. -/
structure DB where
  path : String
  deriving DecidableEq, Repr

/-- A `*bolt.Tx`: the transaction's private view of the buckets. -/
structure Tx where
  buckets : Buckets
  writable : Bool
  deriving DecidableEq, Repr

/-- Library `bolt.Open(path, 0600, &bolt.Options{Timeout: ...})`: creates the file when it
is absent, takes the exclusive file lock, and fails with `ErrTimeout` when the lock is held
by another open handle, or with `ErrInvalid` when the file is not a bolt database. -/
def bolt.Open (disk : Disk) (path : String) : Except BoltError (DB × Disk) :=
  match disk path with
  | none => .ok (⟨path⟩, disk.write path { buckets := [], locked := true, valid := true })
  | some f =>
    if f.locked then .error .ErrTimeout
    else if f.valid = false then .error .ErrInvalid
    else .ok (⟨path⟩, disk.write path { f with locked := true })

/-- Library `db.Close()`: releases the file lock. -/
def DB.Close (db : DB) (disk : Disk) : Disk :=
  match disk db.path with
  | none => disk
  | some f => disk.write db.path { f with locked := false }

/-- Library `tx.CreateBucketIfNotExists(name)`: returns the bucket of that name, creating
an empty one when there is none; fails on a read-only transaction or a blank name. -/
def Tx.CreateBucketIfNotExists (tx : Tx) (name : String) : Except BoltError (Bucket × Tx) :=
  if tx.writable = false then .error .ErrTxNotWritable
  else if name = "" then .error .ErrBucketNameRequired
  else
    match tx.buckets.lookup name with
    | some b => .ok (b, tx)
    | none => .ok ([], { tx with buckets := tx.buckets ++ [(name, [])] })

/-! ## Process state -/

/-- The mutable state `app.go` reads and writes: the package variable `dbfilename`
(line 46), the tunable bounds declared in `volume_entry.go`, the disk and the log. -/
structure World where
  dbfilename : String
  BrickMaxNum : Int
  BrickMaxSize : Nat
  BrickMinSize : Nat
  disk : Disk
  log : List LogEntry

def World.Info (w : World) (msg : String) : World :=
  { w with log := w.log ++ [⟨.info, msg⟩] }

def World.LogError (w : World) (msg : String) : World :=
  { w with log := w.log ++ [⟨.error, msg⟩] }

/-- Logger call `logger.Err(err)`. -/
def World.Err (w : World) (err : BoltError) : World :=
  { w with log := w.log ++ [⟨.error, reprStr err⟩] }

/-- Library `db.Update(fn)`: runs `fn` in a read-write transaction; the transaction is
rolled back when `fn` returns an error and committed otherwise. -/
def DB.Update (db : DB) (w : World)
    (fn : Tx → List LogEntry → Option BoltError × Tx × List LogEntry) :
    Option BoltError × World :=
  match w.disk db.path with
  | none => (some .ErrDatabaseNotOpen, w)
  | some f =>
    match fn ⟨f.buckets, true⟩ w.log with
    | (some err, _, log) => (some err, { w with log := log })
    | (none, tx, log) =>
      (none, { w with log := log, disk := w.disk.write db.path { f with buckets := tx.buckets } })

/-! ## Collaborators declared outside app.go -/

/-- Modelled from the spec: the transport sub-record of the configuration ("host,
credentials, etc."), declared in package `sshexec`; `app.go` only passes it on. -/
structure SshConfig where
  keyfile : String
  user : String
  deriving DecidableEq, Repr

/-- Modelled from the spec: the configuration record `GlusterFSConfig`, declared outside
`app.go`: "execution-kind string, allocation-kind string, store-path string, transport
sub-record, three optional numeric advanced-setting fields". The numeric fields are Go
`int`: `app.go` assigns `BrickMaxNum` as it is and converts the sizes with `uint64(...)`. -/
structure GlusterFSConfig where
  DBfile : String
  Executor : String
  Allocator : String
  SshConfig : SshConfig
  BrickMaxSize : Int
  BrickMinSize : Int
  BrickMaxNum : Int
  deriving DecidableEq, Repr

/-- The simulated executor of package `mockexec`. -/
structure MockExecutor where
  deriving DecidableEq, Repr

/-- The remote executor of package `sshexec`, built from a transport sub-record. -/
structure SshExecutor where
  config : SshConfig
  deriving DecidableEq, Repr

/-- The interface `executors.Executor` with its two implementations. -/
inductive Executor where
  | mock (xo : MockExecutor)
  | ssh (e : SshExecutor)
  deriving DecidableEq, Repr

def mockexec.NewMockExecutor : MockExecutor := {}

/-- Modelled from the spec: the interface `Allocator`, declared outside `app.go`, with
variants "{simulated, store-backed}", each holding the `*bolt.DB` it was built with. -/
inductive Allocator where
  | mock (db : Option DB)
  | simple (db : Option DB)
  deriving DecidableEq, Repr

/-- Modelled from the spec: constructor of the simulated allocator, declared outside
`app.go`. -/
def NewMockAllocator (db : Option DB) : Allocator := .mock db

/-- Modelled from the spec: constructor of the store-backed allocator, declared outside
`app.go`: "constructed with a reference to the already-opened store handle". -/
def NewSimpleAllocatorFromDb (db : Option DB) : Allocator := .simple db

/-- The `rest.AsyncHttpManager`, of which `app.go` uses the route only. -/
structure AsyncHttpManager where
  route : String
  deriving DecidableEq, Repr

def rest.NewAsyncHttpManager (route : String) : AsyncHttpManager := ⟨route⟩

/-- The functions `NewApp` calls whose bodies are outside `app.go`: the configuration
loader (`nil` on a bad configuration) and the ssh executor constructor (`nil` on
failure). -/
structure Collaborators where
  loadConfiguration : String → Option GlusterFSConfig
  NewSshExecutor : SshConfig → Option SshExecutor

/-! ## The application (app.go, lines 49-59) -/

/-- The struct `App`. The field `conf` is a pointer in Go; it is kept as a plain record
because `NewApp` returns `nil` before anything else when no configuration is loaded, so
every application the other blocks see has one. -/
structure App where
  asyncManager : Option AsyncHttpManager
  db : Option DB
  executor : Option Executor
  allocator : Option Allocator
  conf : GlusterFSConfig
  xo : Option MockExecutor
  deriving DecidableEq, Repr

/-- The closure passed to `app.db.Update` (app.go, lines 101-139). -/
def NewApp.func1 (tx : Tx) (log : List LogEntry) : Option BoltError × Tx × List LogEntry :=
  -- Create Cluster Bucket
  match tx.CreateBucketIfNotExists BOLTDB_BUCKET_CLUSTER with
  | .error err => (some err, tx, log ++ [⟨.error, "Unable to create cluster bucket in DB"⟩])
  | .ok (_, tx) =>
  -- Create Node Bucket
  match tx.CreateBucketIfNotExists BOLTDB_BUCKET_NODE with
  | .error err => (some err, tx, log ++ [⟨.error, "Unable to create cluster bucket in DB"⟩])
  | .ok (_, tx) =>
  -- Create Volume Bucket
  match tx.CreateBucketIfNotExists BOLTDB_BUCKET_VOLUME with
  | .error err => (some err, tx, log ++ [⟨.error, "Unable to create cluster bucket in DB"⟩])
  | .ok (_, tx) =>
  -- Create Device Bucket
  match tx.CreateBucketIfNotExists BOLTDB_BUCKET_DEVICE with
  | .error err => (some err, tx, log ++ [⟨.error, "Unable to create cluster bucket in DB"⟩])
  | .ok (_, tx) =>
  -- Create Brick Bucket
  match tx.CreateBucketIfNotExists BOLTDB_BUCKET_BRICK with
  | .error err => (some err, tx, log ++ [⟨.error, "Unable to create cluster bucket in DB"⟩])
  | .ok (_, tx) =>
  (none, tx, log)

/-- Method `(a *App) setAdvSettings()` (app.go, lines 166-187). -/
def App.setAdvSettings (a : App) (w : World) : World :=
  let w :=
    if a.conf.BrickMaxNum ≠ 0 then
      { w.Info ("Adv: Max bricks per volume set to " ++ toString a.conf.BrickMaxNum) with
        BrickMaxNum := a.conf.BrickMaxNum }
    else w
  let w :=
    if a.conf.BrickMaxSize ≠ 0 then
      { w.Info ("Adv: Max brick size " ++ toString a.conf.BrickMaxSize ++ " GB") with
        BrickMaxSize := mulU64 (mulU64 (uint64 a.conf.BrickMaxSize) 1024) 1024 }
    else w
  if a.conf.BrickMinSize ≠ 0 then
    { w.Info ("Adv: Min brick size " ++ toString a.conf.BrickMinSize ++ " GB") with
      BrickMinSize := mulU64 (mulU64 (uint64 a.conf.BrickMinSize) 1024) 1024 }
  else w

/-- The executor block of `NewApp` (app.go, lines 73-86): the switch on the execution
kind, the nil check on the executor and the log line. The result is `none` where `NewApp`
returns `nil`. -/
def NewApp.setupExecutor (c : Collaborators) (app : App) (w : World) : Option App × World :=
  let selected : Option App :=
    if app.conf.Executor = "mock" then
      some { app with xo := some mockexec.NewMockExecutor,
                      executor := some (.mock mockexec.NewMockExecutor) }
    else if app.conf.Executor = "ssh" ∨ app.conf.Executor = "" then
      some { app with executor := (c.NewSshExecutor app.conf.SshConfig).map Executor.ssh }
    else none
  match selected with
  | none => (none, w)
  | some app =>
    match app.executor with
    | none => (none, w)
    | some _ => (some app, w.Info ("Loaded " ++ app.conf.Executor ++ " executor"))

/-- The store block of `NewApp` (app.go, lines 88-143): the choice of the file name, the
opening of the database and the transaction that creates the buckets. The result is `none`
where `NewApp` returns `nil`. -/
def NewApp.setupDB (app : App) (w : World) : Option App × World :=
  -- Set db is set in the configuration file
  let w := if app.conf.DBfile ≠ "" then { w with dbfilename := app.conf.DBfile } else w
  -- Setup BoltDB database
  match bolt.Open w.disk w.dbfilename with
  | .error _ => (none, w.LogError "Unable to open database")
  | .ok (db, disk) =>
    let app := { app with db := some db }
    let w := { w with disk := disk }
    match db.Update w NewApp.func1 with
    | (some err, w) => (none, w.Err err)
    | (none, w) => (some app, w)

/-- The allocator block of `NewApp` (app.go, lines 148-163): the switch on the allocation
kind and the two closing log lines. The result is `none` where `NewApp` returns `nil`. -/
def NewApp.setupAllocator (app : App) (w : World) : Option App × World :=
  if app.conf.Allocator = "mock" then
    let app := { app with allocator := some (NewMockAllocator app.db) }
    let w := w.Info ("Loaded " ++ app.conf.Allocator ++ " allocator")
    -- Show application has loaded
    (some app, w.Info "GlusterFS Application Loaded")
  else if app.conf.Allocator = "simple" ∨ app.conf.Allocator = "" then
    let app := { app with conf := { app.conf with Allocator := "simple" } }
    let app := { app with allocator := some (NewSimpleAllocatorFromDb app.db) }
    let w := w.Info ("Loaded " ++ app.conf.Allocator ++ " allocator")
    -- Show application has loaded
    (some app, w.Info "GlusterFS Application Loaded")
  else (none, w)

/-- Constructor `NewApp(configIo io.Reader) *App` (app.go, lines 61-164), as the sequence
of its blocks. The result is `none` where the Go code returns `nil`; the world returned
is the process state the call leaves behind. -/
def NewApp (c : Collaborators) (configIo : String) (w : World) : Option App × World :=
  -- Load configuration file
  match c.loadConfiguration configIo with
  | none => (none, w)
  | some conf =>
    let app : App :=
      { asyncManager := none, db := none, executor := none, allocator := none,
        conf := conf, xo := none }
    -- Setup asynchronous manager
    let app := { app with asyncManager := some (rest.NewAsyncHttpManager ASYNC_ROUTE) }
    -- Setup executor
    match NewApp.setupExecutor c app w with
    | (none, w) => (none, w)
    | (some app, w) =>
      -- Setup BoltDB database
      match NewApp.setupDB app w with
      | (none, w) => (none, w)
      | (some app, w) =>
        -- Set advanced settings
        let w := app.setAdvSettings w
        -- Setup allocator
        NewApp.setupAllocator app w

/-- Method `(a *App) Close()` (app.go, lines 308-313); a nil `a.db` is a panic. -/
def App.Close (a : App) (w : World) : Option World :=
  match a.db with
  | none => none
  | some db => some ({ w with disk := db.Close w.disk }.Info "Closed")

/-! ## net/http, gorilla/context and jwt -/

/-- A dynamic value stored in a Go `interface{}` slot of the claims map: a string, or a
value of another dynamic type (named by `goType`). A `nil` interface is `none`. -/
inductive Iface where
  | str (s : String)
  | other (goType : String)
  deriving DecidableEq, Repr

/-- The part of `jwt.Token` that `app.go` reads: `Claims map[string]interface{}`. -/
structure Token where
  Raw : String
  Claims : List (String × Iface)
  Valid : Bool
  deriving DecidableEq, Repr

/-- What the per-request context can hold under a key: a `*jwt.Token` (possibly a nil
pointer) or a value of another dynamic type. -/
inductive CtxValue where
  | tokenPtr (t : Option Token)
  | other (goType : String)
  deriving DecidableEq, Repr

/-- An `*http.Request`: method, `r.URL.Path`, and the gorilla context attached to it. -/
structure Request where
  Method : String
  Path : String
  ctx : List (String × CtxValue)
  deriving DecidableEq, Repr

/-- The state behind an `http.ResponseWriter`: headers, the status code once written,
and the body written so far. -/
structure ResponseWriter where
  header : List (String × String)
  status : Option Nat
  body : String
  deriving DecidableEq, Repr

/-- An `http.HandlerFunc`, as the change it makes to the response writer. -/
abbrev HandlerFunc := ResponseWriter → Request → ResponseWriter

def http.StatusOK : Nat := 200
def http.StatusUnauthorized : Nat := 401

/-- Library `w.Header().Set(key, value)`. -/
def ResponseWriter.SetHeader (w : ResponseWriter) (key value : String) : ResponseWriter :=
  { w with header := (key, value) :: w.header.filter (fun kv => kv.1 ≠ key) }

/-- Library `w.WriteHeader(code)`: only the first call takes effect. -/
def ResponseWriter.WriteHeader (w : ResponseWriter) (code : Nat) : ResponseWriter :=
  match w.status with
  | none => { w with status := some code }
  | some _ => w

/-- Library `w.Write(data)`: writes status 200 first when no status was written. -/
def ResponseWriter.Write (w : ResponseWriter) (data : String) : ResponseWriter :=
  let w := w.WriteHeader http.StatusOK
  { w with body := w.body ++ data }

/-- Library `http.Error(w, error, code)`. -/
def http.Error (w : ResponseWriter) (error : String) (code : Nat) : ResponseWriter :=
  let w := w.SetHeader "Content-Type" "text/plain; charset=utf-8"
  let w := w.SetHeader "X-Content-Type-Options" "nosniff"
  let w := w.WriteHeader code
  w.Write (error ++ "\n")

/-- Library `context.Get(r, key)`: the stored value, or a nil interface. -/
def context.Get (r : Request) (key : String) : Option CtxValue :=
  r.ctx.lookup key

inductive Panic where
  | interfaceConversion
  | nilPointerDereference
  deriving DecidableEq, Repr

/-- What a middleware call leaves behind: the response writer, and the calls it made to
the downstream handler, each with the writer and request it passed. -/
structure Served where
  w : ResponseWriter
  calls : List (ResponseWriter × Request)
  deriving DecidableEq, Repr

/-- Method `(a *App) Hello(w, r)` (app.go, lines 315-319). -/
def App.Hello (_a : App) : HandlerFunc := fun w _r =>
  let w := w.SetHeader "Content-Type" "text/plain; charset=UTF-8"
  let w := w.WriteHeader http.StatusOK
  w.Write "HelloWorld from GlusterFS Application"

/-- Middleware `(a *App) Auth(w, r, next)` (app.go, lines 322-338). -/
def App.Auth (_a : App) (w : ResponseWriter) (r : Request) (next : HandlerFunc) :
    Except Panic Served :=
  -- Value saved by the JWT middleware.
  let data := context.Get r "jwt"
  -- Need to change from interface{} to the jwt.Token type
  match data with
  | some (.tokenPtr ptr) =>
    match ptr with
    | none => .error .nilPointerDereference
    | some token =>
      -- Check access
      if some (Iface.str "user") = token.Claims.lookup "iss" ∧ r.Path ≠ "/volumes" then
        .ok ⟨http.Error w "Adminitrator access required" http.StatusUnauthorized, []⟩
      else
        -- Everything is clean
        .ok ⟨next w r, [(w, r)]⟩
  | _ => .error .interfaceConversion

/-! ## Routes (app.go, lines 189-306) -/

/-- The handler a route is bound to, by name; the bodies are outside `app.go`. -/
inductive Handler where
  | Hello
  | AsyncHandlerStatus
  | ClusterCreate
  | ClusterInfo
  | ClusterList
  | ClusterDelete
  | NodeAdd
  | NodeInfo
  | NodeDelete
  | DeviceAdd
  | DeviceInfo
  | DeviceDelete
  | VolumeCreate
  | VolumeInfo
  | VolumeExpand
  | VolumeDelete
  | VolumeList
  deriving DecidableEq, Repr

/-- A `rest.Route`. -/
structure Route where
  Name : String
  Method : String
  Pattern : String
  HandlerFunc : Handler
  deriving DecidableEq, Repr

/-- A route registered on a `mux.Router`. -/
structure MuxRoute where
  methods : List String
  path : String
  name : String
  handler : Handler
  deriving DecidableEq, Repr

abbrev Router := List MuxRoute

/-- The table `routes` of `SetRoutes` (app.go, lines 192-290). -/
def App.routes (_a : App) : List Route :=
  [ -- HelloWorld
    { Name := "Hello", Method := "GET", Pattern := "/hello", HandlerFunc := .Hello },
    -- Asynchronous Manager
    { Name := "Async", Method := "GET", Pattern := ASYNC_ROUTE ++ "/{id:[A-Fa-f0-9]+}",
      HandlerFunc := .AsyncHandlerStatus },
    -- Cluster
    { Name := "ClusterCreate", Method := "POST", Pattern := "/clusters",
      HandlerFunc := .ClusterCreate },
    { Name := "ClusterInfo", Method := "GET", Pattern := "/clusters/{id:[A-Fa-f0-9]+}",
      HandlerFunc := .ClusterInfo },
    { Name := "ClusterList", Method := "GET", Pattern := "/clusters",
      HandlerFunc := .ClusterList },
    { Name := "ClusterDelete", Method := "DELETE", Pattern := "/clusters/{id:[A-Fa-f0-9]+}",
      HandlerFunc := .ClusterDelete },
    -- Node
    { Name := "NodeAdd", Method := "POST", Pattern := "/nodes", HandlerFunc := .NodeAdd },
    { Name := "NodeInfo", Method := "GET", Pattern := "/nodes/{id:[A-Fa-f0-9]+}",
      HandlerFunc := .NodeInfo },
    { Name := "NodeDelete", Method := "DELETE", Pattern := "/nodes/{id:[A-Fa-f0-9]+}",
      HandlerFunc := .NodeDelete },
    -- Devices
    { Name := "DeviceAdd", Method := "POST", Pattern := "/devices", HandlerFunc := .DeviceAdd },
    { Name := "DeviceInfo", Method := "GET", Pattern := "/devices/{id:[A-Fa-f0-9]+}",
      HandlerFunc := .DeviceInfo },
    { Name := "DeviceDelete", Method := "DELETE", Pattern := "/devices/{id:[A-Fa-f0-9]+}",
      HandlerFunc := .DeviceDelete },
    -- Volume
    { Name := "VolumeCreate", Method := "POST", Pattern := "/volumes",
      HandlerFunc := .VolumeCreate },
    { Name := "VolumeInfo", Method := "GET", Pattern := "/volumes/{id:[A-Fa-f0-9]+}",
      HandlerFunc := .VolumeInfo },
    { Name := "VolumeExpand", Method := "POST", Pattern := "/volumes/{id:[A-Fa-f0-9]+}/expand",
      HandlerFunc := .VolumeExpand },
    { Name := "VolumeDelete", Method := "DELETE", Pattern := "/volumes/{id:[A-Fa-f0-9]+}",
      HandlerFunc := .VolumeDelete },
    { Name := "VolumeList", Method := "GET", Pattern := "/volumes",
      HandlerFunc := .VolumeList } ]

/-- Library chain `router.Methods(m).Path(p).Name(n).Handler(h)`: adds one route. -/
def Router.register (router : Router) (route : Route) : Router :=
  router ++ [{ methods := [route.Method], path := route.Pattern, name := route.Name,
               handler := route.HandlerFunc }]

/-- Method `(a *App) SetRoutes(router) error` (app.go, lines 190-306): registers every
route of the table, in order, and returns a nil error. -/
def App.SetRoutes (a : App) (router : Router) : Router × Option String :=
  (a.routes.foldl Router.register router, none)

/-- The method and path template of every registered route. -/
def Router.table (router : Router) : List (List String × String) :=
  router.map (fun m => (m.methods, m.path))

/-- The segments of a path template, split at every `/`. -/
def splitSlash : List Char → List (List Char)
  | [] => [[]]
  | c :: cs =>
    if c = '/' then [] :: splitSlash cs
    else
      match splitSlash cs with
      | [] => [[c]]
      | s :: ss => (c :: s) :: ss

def pathSegments (pattern : String) : List String :=
  (splitSlash pattern.data).map String.mk

/-- A segment of a mux path template is a variable when it has the form `{...}`; the
variable is constrained when a regular expression follows a colon inside the braces. -/
def isVariable (seg : String) : Bool :=
  seg.data.head? = some '{'

/-- The name of a template variable: the text between `{` and the first `:` or `}`. -/
def variableName (seg : String) : String :=
  String.mk ((seg.data.drop 1).takeWhile (fun c => c ≠ ':' ∧ c ≠ '}'))

/-- The regular expression of a template variable `{name:regexp}`, if it has one. -/
def variablePattern (seg : String) : Option String :=
  match (seg.data.drop 1).dropWhile (fun c => c ≠ ':' ∧ c ≠ '}') with
  | ':' :: rest => some (String.mk (rest.take (rest.length - 1)))
  | _ => none

/-! ## Auxiliary definitions used in statements and proofs -/

/-- The names of the top-level buckets, in stored order. -/
def bucketNames (bs : Buckets) : List String := bs.map Prod.fst

/-- The buckets with `name` present: as they are when a bucket of that name exists,
extended by an empty bucket otherwise. -/
def ensureBucket (name : String) (bs : Buckets) : Buckets :=
  match bs.lookup name with
  | some _ => bs
  | none => bs ++ [(name, [])]

/-- The five bucket names of app.go, in the order the closure creates them. -/
def namespaceNames : List String :=
  [BOLTDB_BUCKET_CLUSTER, BOLTDB_BUCKET_NODE, BOLTDB_BUCKET_VOLUME, BOLTDB_BUCKET_DEVICE,
    BOLTDB_BUCKET_BRICK]

/-- The buckets with each of the five names present, added in the closure's order. -/
def withNamespaces (bs : Buckets) : Buckets :=
  ensureBucket BOLTDB_BUCKET_BRICK (ensureBucket BOLTDB_BUCKET_DEVICE
    (ensureBucket BOLTDB_BUCKET_VOLUME (ensureBucket BOLTDB_BUCKET_NODE
      (ensureBucket BOLTDB_BUCKET_CLUSTER bs))))

/-- The path `NewApp` opens: the configured file, or the current `dbfilename` when the
configuration names none. -/
def storePath (conf : GlusterFSConfig) (w : World) : String :=
  if conf.DBfile ≠ "" then conf.DBfile else w.dbfilename

/-- The file at `path` can be opened: there is none yet, or it is a valid database that no
open handle has locked. -/
def canOpen (d : Disk) (path : String) : Bool :=
  match d path with
  | none => true
  | some f => !f.locked && f.valid

/-- The application as `NewApp` has it when it enters the executor block: the
configuration loaded, the asynchronous manager set, every other field nil. -/
def initialApp (conf : GlusterFSConfig) : App :=
  { asyncManager := some (rest.NewAsyncHttpManager ASYNC_ROUTE), db := none,
    executor := none, allocator := none, conf := conf, xo := none }

/-! ## Sample inputs -/

/-- A store file held open, with one bucket that has contents and four buckets missing. -/
def usedFile : DBFile :=
  { buckets := [("VOLUME", [("v1", "data")])], locked := true, valid := true }

/-- A world whose disk holds `usedFile` at `heketi.db`, opened through `openHandle`. -/
def usedWorld : World :=
  { dbfilename := "heketi.db", BrickMaxNum := 200, BrickMaxSize := 4294967296,
    BrickMinSize := 1048576, disk := fun q => if q = "heketi.db" then some usedFile else none,
    log := [] }

def openHandle : DB := ⟨"heketi.db"⟩

def sampleConf : GlusterFSConfig :=
  { DBfile := "", Executor := "mock", Allocator := "", SshConfig := ⟨"", ""⟩,
    BrickMaxSize := 0, BrickMinSize := 0, BrickMaxNum := 0 }

def sampleApp : App :=
  { asyncManager := some (rest.NewAsyncHttpManager ASYNC_ROUTE), db := none,
    executor := none, allocator := none, conf := sampleConf, xo := none }

/-- Sample collaborators: the loader yields no configuration for `"unreadable"`, an
unrecognized allocation kind together with `BrickMaxNum = 5` for `"bogus-allocator"`, an
unrecognized execution kind for `"bogus-executor"`, and `sampleConf` otherwise; the ssh
constructor fails when no key file is named. -/
def sampleCollaborators : Collaborators :=
  { loadConfiguration := fun input =>
      if input = "unreadable" then none
      else if input = "bogus-allocator" then
        some { sampleConf with Allocator := "bogus", BrickMaxNum := 5 }
      else if input = "bogus-executor" then some { sampleConf with Executor := "bogus" }
      else some sampleConf,
    NewSshExecutor := fun conf => if conf.keyfile = "" then none else some ⟨conf⟩ }

/-- A response writer nothing has been written to. -/
def freshWriter : ResponseWriter := { header := [], status := none, body := "" }

def userToken : Token := { Raw := "", Claims := [("iss", .str "user")], Valid := true }

def adminToken : Token := { Raw := "", Claims := [("iss", .str "admin")], Valid := true }

/-- A request of the restricted role for a path other than `/volumes`. -/
def userClustersRequest : Request :=
  { Method := "GET", Path := "/clusters", ctx := [("jwt", .tokenPtr (some userToken))] }

/-- A request of another issuer for the same path. -/
def adminClustersRequest : Request :=
  { Method := "GET", Path := "/clusters", ctx := [("jwt", .tokenPtr (some adminToken))] }

/-- A request that no JWT middleware has handled: nothing is stored under `"jwt"`. -/
def bareRequest : Request := { Method := "GET", Path := "/clusters", ctx := [] }

/-- A process state at start-up: the default of `dbfilename` (line 46), sample values for
the bounds declared in `volume_entry.go` (200 bricks, 4 TB and 1 GB in KB), an empty disk
and an empty log. -/
def freshWorld : World :=
  { dbfilename := "heketi.db", BrickMaxNum := 200, BrickMaxSize := 4294967296,
    BrickMinSize := 1048576, disk := fun _ => none, log := [] }

/-- An application configured with `BrickMaxSize = 2` (GB) and the other settings unset. -/
def twoGBApp : App := { sampleApp with conf := { sampleConf with BrickMaxSize := 2 } }

/-- An application whose three advanced settings are configured as `-1`. -/
def negativeApp : App :=
  { sampleApp with
    conf := { sampleConf with BrickMaxNum := -1, BrickMaxSize := -1, BrickMinSize := -1 } }

/-! ## Theorems -/

/-! ### The authorization gate -/

theorem http_Error_status (w : ResponseWriter) (msg : String) (code : Nat)
    (hfresh : w.status = none) : (http.Error w msg code).status = some code := by
  simp [http.Error, ResponseWriter.Write, ResponseWriter.WriteHeader,
    ResponseWriter.SetHeader, hfresh]

/-- C1: when the context holds a verified token, `Auth` answers through `http.Error` with
status 401 and makes no call to `next` exactly when the issuer claim is `"user"` and the
path is not `/volumes`; in every other case it calls `next` once, on the writer and request
it was given, and the response is just what `next` made of that untouched writer. -/
theorem auth_rejects_iff_user_off_volumes (a : App) (w : ResponseWriter) (r : Request)
    (token : Token) (next : HandlerFunc)
    (hctx : context.Get r "jwt" = some (.tokenPtr (some token))) :
    (a.Auth w r next
        = .ok ⟨http.Error w "Adminitrator access required" http.StatusUnauthorized, []⟩
      ↔ (token.Claims.lookup "iss" = some (.str "user") ∧ r.Path ≠ "/volumes"))
    ∧ (¬ (token.Claims.lookup "iss" = some (.str "user") ∧ r.Path ≠ "/volumes")
        → a.Auth w r next = .ok ⟨next w r, [(w, r)]⟩)
    ∧ (w.status = none →
        (http.Error w "Adminitrator access required" http.StatusUnauthorized).status
          = some 401) := by
  refine ⟨?_, ?_, ?_⟩
  · constructor
    · intro h
      by_contra hc
      have hc' : ¬ (some (Iface.str "user") = token.Claims.lookup "iss"
          ∧ r.Path ≠ "/volumes") := fun hh => hc ⟨hh.1.symm, hh.2⟩
      simp only [App.Auth, hctx, if_neg hc'] at h
      injection h with h
      injection h with _ hcalls
      exact List.noConfusion hcalls
    · intro h
      have h' : some (Iface.str "user") = token.Claims.lookup "iss"
          ∧ r.Path ≠ "/volumes" := ⟨h.1.symm, h.2⟩
      simp only [App.Auth, hctx, if_pos h']
  · intro hc
    have hc' : ¬ (some (Iface.str "user") = token.Claims.lookup "iss"
        ∧ r.Path ≠ "/volumes") := fun hh => hc ⟨hh.1.symm, hh.2⟩
    simp only [App.Auth, hctx, if_neg hc']
  · intro hfresh
    exact http_Error_status w _ _ hfresh

theorem auth_rejects_iff_user_off_volumes_witness :
    (sampleApp.Auth freshWriter userClustersRequest (App.Hello sampleApp)
        = .ok ⟨http.Error freshWriter "Adminitrator access required"
            http.StatusUnauthorized, []⟩
      ↔ (userToken.Claims.lookup "iss" = some (.str "user")
          ∧ userClustersRequest.Path ≠ "/volumes"))
    ∧ (¬ (userToken.Claims.lookup "iss" = some (.str "user")
          ∧ userClustersRequest.Path ≠ "/volumes")
        → sampleApp.Auth freshWriter userClustersRequest (App.Hello sampleApp)
            = .ok ⟨App.Hello sampleApp freshWriter userClustersRequest,
                [(freshWriter, userClustersRequest)]⟩)
    ∧ (freshWriter.status = none →
        (http.Error freshWriter "Adminitrator access required"
          http.StatusUnauthorized).status = some 401) :=
  auth_rejects_iff_user_off_volumes sampleApp freshWriter userClustersRequest userToken
    (App.Hello sampleApp) (by decide)

/-- A request of another issuer passes the gate: `Auth` hands it to the handler once. -/
theorem auth_admin_passes :
    sampleApp.Auth freshWriter adminClustersRequest (App.Hello sampleApp)
      = .ok ⟨App.Hello sampleApp freshWriter adminClustersRequest,
          [(freshWriter, adminClustersRequest)]⟩ := by
  rfl

/-- C9, as stated, fails: on a request with nothing stored under `"jwt"` the type
assertion of `Auth` panics. -/
theorem auth_panics_without_jwt :
    sampleApp.Auth freshWriter bareRequest (App.Hello sampleApp)
      = .error .interfaceConversion := by
  rfl

/-- C9, amended: `Auth` ends in one of its two outcomes, the unauthorized response or the
call of the handler, exactly when the context holds a non-nil token under `"jwt"`; with
no value, a value of another type, or a nil token pointer, it panics. -/
theorem auth_outcome_iff_token_in_context (a : App) (w : ResponseWriter) (r : Request)
    (next : HandlerFunc) :
    ((a.Auth w r next
          = .ok ⟨http.Error w "Adminitrator access required" http.StatusUnauthorized, []⟩
        ∨ a.Auth w r next = .ok ⟨next w r, [(w, r)]⟩)
      ↔ ∃ token, context.Get r "jwt" = some (.tokenPtr (some token)))
    ∧ ((∃ p, a.Auth w r next = .error p)
      ↔ ¬ ∃ token, context.Get r "jwt" = some (.tokenPtr (some token))) := by
  cases hctx : context.Get r "jwt" with
  | none => simp [App.Auth, hctx]
  | some v =>
    cases v with
    | other ty => simp [App.Auth, hctx]
    | tokenPtr ptr =>
      cases ptr with
      | none => simp [App.Auth, hctx]
      | some token =>
        by_cases hc : some (Iface.str "user") = token.Claims.lookup "iss"
            ∧ r.Path ≠ "/volumes"
        · simp [App.Auth, hctx, if_pos hc]
        · simp [App.Auth, hctx, if_neg hc]

/-! ### Advanced settings -/

theorem setAdvSettings_BrickMaxNum (a : App) (w : World) :
    (a.setAdvSettings w).BrickMaxNum
      = if a.conf.BrickMaxNum ≠ 0 then a.conf.BrickMaxNum else w.BrickMaxNum := by
  unfold App.setAdvSettings
  by_cases h1 : a.conf.BrickMaxNum = 0 <;> by_cases h2 : a.conf.BrickMaxSize = 0 <;>
    by_cases h3 : a.conf.BrickMinSize = 0 <;> simp [h1, h2, h3, World.Info]

theorem setAdvSettings_BrickMaxSize (a : App) (w : World) :
    (a.setAdvSettings w).BrickMaxSize
      = if a.conf.BrickMaxSize ≠ 0 then mulU64 (mulU64 (uint64 a.conf.BrickMaxSize) 1024) 1024
        else w.BrickMaxSize := by
  unfold App.setAdvSettings
  by_cases h1 : a.conf.BrickMaxNum = 0 <;> by_cases h2 : a.conf.BrickMaxSize = 0 <;>
    by_cases h3 : a.conf.BrickMinSize = 0 <;> simp [h1, h2, h3, World.Info]

theorem setAdvSettings_BrickMinSize (a : App) (w : World) :
    (a.setAdvSettings w).BrickMinSize
      = if a.conf.BrickMinSize ≠ 0 then mulU64 (mulU64 (uint64 a.conf.BrickMinSize) 1024) 1024
        else w.BrickMinSize := by
  unfold App.setAdvSettings
  by_cases h1 : a.conf.BrickMaxNum = 0 <;> by_cases h2 : a.conf.BrickMaxSize = 0 <;>
    by_cases h3 : a.conf.BrickMinSize = 0 <;> simp [h1, h2, h3, World.Info]

theorem setAdvSettings_disk (a : App) (w : World) :
    (a.setAdvSettings w).disk = w.disk ∧ (a.setAdvSettings w).dbfilename = w.dbfilename := by
  unfold App.setAdvSettings
  by_cases h1 : a.conf.BrickMaxNum = 0 <;> by_cases h2 : a.conf.BrickMaxSize = 0 <;>
    by_cases h3 : a.conf.BrickMinSize = 0 <;> simp [h1, h2, h3, World.Info]

/-- Conversion to KB of a size below `2^44` GB does not wrap. -/
theorem gb_to_kb_exact (v : Int) (h0 : 0 ≤ v) (hlt : v < 2 ^ 44) :
    mulU64 (mulU64 (uint64 v) 1024) 1024 = v.toNat * 1024 * 1024 := by
  have h1 : uint64 v = v.toNat := by
    unfold uint64 twoPow64
    congr 1
    apply Int.emod_eq_of_lt h0
    omega
  rw [h1]
  unfold mulU64 twoPow64
  have h2 : v.toNat < 2 ^ 44 := by omega
  have h3 : v.toNat * 1024 < 18446744073709551616 := by omega
  rw [Nat.mod_eq_of_lt h3]
  apply Nat.mod_eq_of_lt
  omega

/-- Conversion to KB of a non-negative size is multiplication modulo `2^64`. -/
theorem gb_to_kb_wrapping (v : Int) (h0 : 0 ≤ v) :
    mulU64 (mulU64 (uint64 v) 1024) 1024 = (v.toNat * 1024 * 1024) % 2 ^ 64 := by
  have h1 : uint64 v = v.toNat % 18446744073709551616 := by
    unfold uint64 twoPow64
    omega
  rw [h1]
  unfold mulU64 twoPow64
  omega

/-- C4: for a configured size `v` with `0 ≤ v < 2^44`, after `setAdvSettings` the bound
`BrickMaxSize` is `v * 1024 * 1024` when `v > 0` and its prior value when `v = 0`; the same
for `BrickMinSize` with its own configured value. -/
theorem setAdvSettings_size_in_kb (a : App) (w : World) (v : Int) (h0 : 0 ≤ v)
    (hlt : v < 2 ^ 44) :
    (a.conf.BrickMaxSize = v →
      (a.setAdvSettings w).BrickMaxSize
        = if 0 < v then v.toNat * 1024 * 1024 else w.BrickMaxSize)
    ∧ (a.conf.BrickMinSize = v →
      (a.setAdvSettings w).BrickMinSize
        = if 0 < v then v.toNat * 1024 * 1024 else w.BrickMinSize) := by
  constructor
  · intro hv
    rw [setAdvSettings_BrickMaxSize, hv]
    by_cases hz : v = 0
    · simp [hz]
    · have hpos : 0 < v := by omega
      simp [hz, hpos, gb_to_kb_exact v h0 hlt]
  · intro hv
    rw [setAdvSettings_BrickMinSize, hv]
    by_cases hz : v = 0
    · simp [hz]
    · have hpos : 0 < v := by omega
      simp [hz, hpos, gb_to_kb_exact v h0 hlt]

theorem setAdvSettings_size_in_kb_witness :
    (twoGBApp.setAdvSettings freshWorld).BrickMaxSize = 2097152
    ∧ (sampleApp.setAdvSettings freshWorld).BrickMaxSize = freshWorld.BrickMaxSize := by
  have h2 := (setAdvSettings_size_in_kb twoGBApp freshWorld 2 (by decide) (by decide)).1 rfl
  have h0 := (setAdvSettings_size_in_kb sampleApp freshWorld 0 (by decide) (by decide)).1 rfl
  exact ⟨by simpa using h2, by simpa using h0⟩

/-- C5, as stated, fails: configured values of `-1` are not positive, yet each of the
three bounds is overwritten. -/
theorem setAdvSettings_negative_overrides :
    negativeApp.conf.BrickMaxNum ≤ 0
    ∧ (negativeApp.setAdvSettings freshWorld).BrickMaxNum = -1
    ∧ (negativeApp.setAdvSettings freshWorld).BrickMaxNum ≠ freshWorld.BrickMaxNum
    ∧ (negativeApp.setAdvSettings freshWorld).BrickMaxSize = 18446744073708503040
    ∧ (negativeApp.setAdvSettings freshWorld).BrickMaxSize ≠ freshWorld.BrickMaxSize
    ∧ (negativeApp.setAdvSettings freshWorld).BrickMinSize ≠ freshWorld.BrickMinSize := by
  decide

/-- C5, amended: each of the three bounds changes only when its configured value is
non-zero; a zero value leaves the bound at its prior value, and a positive value takes
effect (`BrickMaxNum` becomes the value, a size becomes the value times `1024 * 1024`
modulo `2^64`). -/
theorem setAdvSettings_zero_keeps_bound (a : App) (w : World) :
    ((a.conf.BrickMaxNum = 0 → (a.setAdvSettings w).BrickMaxNum = w.BrickMaxNum)
      ∧ ((a.setAdvSettings w).BrickMaxNum ≠ w.BrickMaxNum → a.conf.BrickMaxNum ≠ 0)
      ∧ (0 < a.conf.BrickMaxNum → (a.setAdvSettings w).BrickMaxNum = a.conf.BrickMaxNum))
    ∧ ((a.conf.BrickMaxSize = 0 → (a.setAdvSettings w).BrickMaxSize = w.BrickMaxSize)
      ∧ ((a.setAdvSettings w).BrickMaxSize ≠ w.BrickMaxSize → a.conf.BrickMaxSize ≠ 0)
      ∧ (0 < a.conf.BrickMaxSize → (a.setAdvSettings w).BrickMaxSize
          = (a.conf.BrickMaxSize.toNat * 1024 * 1024) % 2 ^ 64))
    ∧ ((a.conf.BrickMinSize = 0 → (a.setAdvSettings w).BrickMinSize = w.BrickMinSize)
      ∧ ((a.setAdvSettings w).BrickMinSize ≠ w.BrickMinSize → a.conf.BrickMinSize ≠ 0)
      ∧ (0 < a.conf.BrickMinSize → (a.setAdvSettings w).BrickMinSize
          = (a.conf.BrickMinSize.toNat * 1024 * 1024) % 2 ^ 64)) := by
  refine ⟨⟨?_, ?_, ?_⟩, ⟨?_, ?_, ?_⟩, ⟨?_, ?_, ?_⟩⟩
  · intro hz
    simp [setAdvSettings_BrickMaxNum, hz]
  · intro hne hz
    exact hne (by simp [setAdvSettings_BrickMaxNum, hz])
  · intro hpos
    have hz : a.conf.BrickMaxNum ≠ 0 := by omega
    simp [setAdvSettings_BrickMaxNum, hz]
  · intro hz
    simp [setAdvSettings_BrickMaxSize, hz]
  · intro hne hz
    exact hne (by simp [setAdvSettings_BrickMaxSize, hz])
  · intro hpos
    have hz : a.conf.BrickMaxSize ≠ 0 := by omega
    rw [setAdvSettings_BrickMaxSize, if_pos hz, gb_to_kb_wrapping _ (by omega)]
  · intro hz
    simp [setAdvSettings_BrickMinSize, hz]
  · intro hne hz
    exact hne (by simp [setAdvSettings_BrickMinSize, hz])
  · intro hpos
    have hz : a.conf.BrickMinSize ≠ 0 := by omega
    rw [setAdvSettings_BrickMinSize, if_pos hz, gb_to_kb_wrapping _ (by omega)]

/-! ### Store initialization -/

theorem mem_bucketNames_iff (bs : Buckets) (name : String) :
    name ∈ bucketNames bs ↔ bs.lookup name ≠ none := by
  unfold bucketNames
  rw [Ne, List.lookup_eq_none_iff]
  simp only [List.mem_map, bne_iff_ne, ne_eq, not_forall, Classical.not_not]
  constructor
  · rintro ⟨p, hp, rfl⟩
    exact ⟨p, hp, rfl⟩
  · rintro ⟨p, hp, h⟩
    exact ⟨p, hp, h.symm⟩

theorem ensureBucket_of_mem (bs : Buckets) (name : String) (h : name ∈ bucketNames bs) :
    ensureBucket name bs = bs := by
  rw [mem_bucketNames_iff] at h
  unfold ensureBucket
  cases hl : bs.lookup name with
  | none => exact absurd hl h
  | some b => rfl

theorem mem_ensureBucket_self (bs : Buckets) (name : String) :
    name ∈ bucketNames (ensureBucket name bs) := by
  unfold ensureBucket
  cases hl : bs.lookup name with
  | none => simp [bucketNames]
  | some b =>
    rw [mem_bucketNames_iff]
    simp [hl]

theorem mem_ensureBucket_of_mem (bs : Buckets) (name k : String) (h : k ∈ bucketNames bs) :
    k ∈ bucketNames (ensureBucket name bs) := by
  unfold ensureBucket
  cases hl : bs.lookup name with
  | none =>
    unfold bucketNames at h ⊢
    simp only [List.map_append, List.mem_append]
    exact Or.inl h
  | some b => exact h

theorem lookup_ensureBucket (bs : Buckets) (name k : String) (b : Bucket)
    (h : bs.lookup k = some b) : (ensureBucket name bs).lookup k = some b := by
  unfold ensureBucket
  cases hl : bs.lookup name with
  | none => simp [List.lookup_append, h]
  | some b' => exact h

theorem nodup_ensureBucket (bs : Buckets) (name : String) (h : (bucketNames bs).Nodup) :
    (bucketNames (ensureBucket name bs)).Nodup := by
  unfold ensureBucket
  cases hl : bs.lookup name with
  | some b => exact h
  | none =>
    have hnot : name ∉ bucketNames bs := by
      rw [mem_bucketNames_iff]
      simp [hl]
    unfold bucketNames at h hnot ⊢
    rw [List.map_append, List.nodup_append]
    refine ⟨h, by simp, ?_⟩
    intro x hx hx'
    simp only [List.map_cons, List.map_nil, List.mem_singleton] at hx'
    exact hnot (hx' ▸ hx)

theorem createBucketIfNotExists_writable (bs : Buckets) (name : String) (hname : name ≠ "") :
    ∃ b, Tx.CreateBucketIfNotExists ⟨bs, true⟩ name
      = .ok (b, ⟨ensureBucket name bs, true⟩) := by
  unfold Tx.CreateBucketIfNotExists ensureBucket
  cases hl : bs.lookup name with
  | none => exact ⟨[], by simp [hname]⟩
  | some b => exact ⟨b, by simp [hname]⟩

/-- The closure of `NewApp`, run on a writable transaction, returns no error, logs nothing
and leaves the five buckets present. -/
theorem func1_writable (bs : Buckets) (log : List LogEntry) :
    NewApp.func1 ⟨bs, true⟩ log = (none, ⟨withNamespaces bs, true⟩, log) := by
  obtain ⟨b1, h1⟩ := createBucketIfNotExists_writable bs BOLTDB_BUCKET_CLUSTER (by decide)
  obtain ⟨b2, h2⟩ := createBucketIfNotExists_writable
    (ensureBucket BOLTDB_BUCKET_CLUSTER bs) BOLTDB_BUCKET_NODE (by decide)
  obtain ⟨b3, h3⟩ := createBucketIfNotExists_writable
    (ensureBucket BOLTDB_BUCKET_NODE (ensureBucket BOLTDB_BUCKET_CLUSTER bs))
    BOLTDB_BUCKET_VOLUME (by decide)
  obtain ⟨b4, h4⟩ := createBucketIfNotExists_writable
    (ensureBucket BOLTDB_BUCKET_VOLUME (ensureBucket BOLTDB_BUCKET_NODE
      (ensureBucket BOLTDB_BUCKET_CLUSTER bs))) BOLTDB_BUCKET_DEVICE (by decide)
  obtain ⟨b5, h5⟩ := createBucketIfNotExists_writable
    (ensureBucket BOLTDB_BUCKET_DEVICE (ensureBucket BOLTDB_BUCKET_VOLUME
      (ensureBucket BOLTDB_BUCKET_NODE (ensureBucket BOLTDB_BUCKET_CLUSTER bs))))
    BOLTDB_BUCKET_BRICK (by decide)
  simp only [NewApp.func1, h1, h2, h3, h4, h5, withNamespaces]

theorem namespaces_mem_withNamespaces (bs : Buckets) :
    ∀ name ∈ namespaceNames, name ∈ bucketNames (withNamespaces bs) := by
  intro name hname
  simp only [namespaceNames, List.mem_cons, List.mem_singleton, List.not_mem_nil,
    or_false] at hname
  unfold withNamespaces
  rcases hname with h | h | h | h | h <;> subst h
  · exact mem_ensureBucket_of_mem _ _ _ (mem_ensureBucket_of_mem _ _ _
      (mem_ensureBucket_of_mem _ _ _ (mem_ensureBucket_of_mem _ _ _
        (mem_ensureBucket_self _ _))))
  · exact mem_ensureBucket_of_mem _ _ _ (mem_ensureBucket_of_mem _ _ _
      (mem_ensureBucket_of_mem _ _ _ (mem_ensureBucket_self _ _)))
  · exact mem_ensureBucket_of_mem _ _ _ (mem_ensureBucket_of_mem _ _ _
      (mem_ensureBucket_self _ _))
  · exact mem_ensureBucket_of_mem _ _ _ (mem_ensureBucket_self _ _)
  · exact mem_ensureBucket_self _ _

theorem nodup_withNamespaces (bs : Buckets) (h : (bucketNames bs).Nodup) :
    (bucketNames (withNamespaces bs)).Nodup := by
  unfold withNamespaces
  exact nodup_ensureBucket _ _ (nodup_ensureBucket _ _ (nodup_ensureBucket _ _
    (nodup_ensureBucket _ _ (nodup_ensureBucket _ _ h))))

theorem lookup_withNamespaces (bs : Buckets) (k : String) (b : Bucket)
    (h : bs.lookup k = some b) : (withNamespaces bs).lookup k = some b := by
  unfold withNamespaces
  exact lookup_ensureBucket _ _ _ _ (lookup_ensureBucket _ _ _ _ (lookup_ensureBucket _ _ _ _
    (lookup_ensureBucket _ _ _ _ (lookup_ensureBucket _ _ _ _ h))))

theorem withNamespaces_of_present (bs : Buckets)
    (h : ∀ name ∈ namespaceNames, name ∈ bucketNames bs) : withNamespaces bs = bs := by
  have h1 := h BOLTDB_BUCKET_CLUSTER (by simp [namespaceNames])
  have h2 := h BOLTDB_BUCKET_NODE (by simp [namespaceNames])
  have h3 := h BOLTDB_BUCKET_VOLUME (by simp [namespaceNames])
  have h4 := h BOLTDB_BUCKET_DEVICE (by simp [namespaceNames])
  have h5 := h BOLTDB_BUCKET_BRICK (by simp [namespaceNames])
  unfold withNamespaces
  rw [ensureBucket_of_mem bs _ h1, ensureBucket_of_mem bs _ h2, ensureBucket_of_mem bs _ h3,
    ensureBucket_of_mem bs _ h4, ensureBucket_of_mem bs _ h5]

theorem withNamespaces_idempotent (bs : Buckets) :
    withNamespaces (withNamespaces bs) = withNamespaces bs :=
  withNamespaces_of_present _ (namespaces_mem_withNamespaces bs)

/-- The initialization transaction on an open handle: it commits the buckets with the five
names present and changes nothing else. -/
theorem update_func1 (db : DB) (w : World) (f : DBFile) (hfile : w.disk db.path = some f) :
    db.Update w NewApp.func1
      = (none, { w with disk := w.disk.write db.path
                          { f with buckets := withNamespaces f.buckets } }) := by
  simp only [DB.Update, hfile, func1_writable]

theorem write_same (d : Disk) (path : String) (f : DBFile) (h : d path = some f) :
    d.write path f = d := by
  funext q
  unfold Disk.write
  by_cases hq : q = path
  · simp [hq, h]
  · simp [hq]

/-- C6: on every store whose bucket names are distinct (a map from name to contents), the
initialization transaction of `NewApp` returns no error; afterwards each of the five names
`CLUSTER`, `NODE`, `VOLUME`, `DEVICE`, `BRICK` occurs exactly once, every bucket that
existed before is still there exactly once with the same contents, and running the
transaction again changes nothing. -/
theorem init_transaction_ensures_namespaces (db : DB) (w : World) (f : DBFile)
    (hfile : w.disk db.path = some f) (hmap : (bucketNames f.buckets).Nodup) :
    ∃ w' f', db.Update w NewApp.func1 = (none, w') ∧ w'.disk db.path = some f'
      ∧ (∀ name ∈ [BOLTDB_BUCKET_CLUSTER, BOLTDB_BUCKET_NODE, BOLTDB_BUCKET_VOLUME,
            BOLTDB_BUCKET_DEVICE, BOLTDB_BUCKET_BRICK],
          (bucketNames f'.buckets).count name = 1)
      ∧ (∀ name b, f.buckets.lookup name = some b →
          f'.buckets.lookup name = some b ∧ (bucketNames f'.buckets).count name = 1)
      ∧ db.Update w' NewApp.func1 = (none, w') := by
  have hnd := nodup_withNamespaces f.buckets hmap
  refine ⟨_, { f with buckets := withNamespaces f.buckets }, update_func1 db w f hfile,
    by simp [Disk.write], ?_, ?_, ?_⟩
  · intro name hname
    exact List.count_eq_one_of_mem hnd (namespaces_mem_withNamespaces f.buckets name hname)
  · intro name b hb
    have hl := lookup_withNamespaces f.buckets name b hb
    refine ⟨hl, List.count_eq_one_of_mem hnd ?_⟩
    rw [mem_bucketNames_iff]
    simp [hl]
  · rw [update_func1 db _ { f with buckets := withNamespaces f.buckets } (by simp [Disk.write])]
    simp only [withNamespaces_idempotent]
    rw [write_same]
    simp [Disk.write]

theorem init_transaction_ensures_namespaces_witness :
    ∃ w' f', openHandle.Update usedWorld NewApp.func1 = (none, w')
      ∧ w'.disk openHandle.path = some f'
      ∧ (∀ name ∈ [BOLTDB_BUCKET_CLUSTER, BOLTDB_BUCKET_NODE, BOLTDB_BUCKET_VOLUME,
            BOLTDB_BUCKET_DEVICE, BOLTDB_BUCKET_BRICK],
          (bucketNames f'.buckets).count name = 1)
      ∧ (∀ name b, usedFile.buckets.lookup name = some b →
          f'.buckets.lookup name = some b ∧ (bucketNames f'.buckets).count name = 1)
      ∧ openHandle.Update w' NewApp.func1 = (none, w') :=
  init_transaction_ensures_namespaces openHandle usedWorld usedFile rfl (by decide)

/-! ### The blocks of `NewApp` -/

theorem setupExecutor_unknown (c : Collaborators) (app : App) (w : World)
    (h1 : app.conf.Executor ≠ "mock") (h2 : app.conf.Executor ≠ "ssh")
    (h3 : app.conf.Executor ≠ "") : NewApp.setupExecutor c app w = (none, w) := by
  simp [NewApp.setupExecutor, h1, h2, h3]

theorem setupExecutor_mock (c : Collaborators) (app : App) (w : World)
    (h : app.conf.Executor = "mock") :
    NewApp.setupExecutor c app w
      = (some { app with xo := some mockexec.NewMockExecutor,
                         executor := some (.mock mockexec.NewMockExecutor) },
         w.Info ("Loaded " ++ app.conf.Executor ++ " executor")) := by
  simp [NewApp.setupExecutor, h]

theorem setupExecutor_ssh (c : Collaborators) (app : App) (w : World)
    (h : app.conf.Executor = "ssh" ∨ app.conf.Executor = "") :
    NewApp.setupExecutor c app w
      = match c.NewSshExecutor app.conf.SshConfig with
        | none => (none, w)
        | some e => (some { app with executor := some (.ssh e) },
                     w.Info ("Loaded " ++ app.conf.Executor ++ " executor")) := by
  have hm : app.conf.Executor ≠ "mock" := by
    rcases h with h | h <;> rw [h] <;> decide
  cases he : c.NewSshExecutor app.conf.SshConfig <;>
    simp [NewApp.setupExecutor, hm, h, he]

/-- The executor block either fails and leaves the world as it was, or succeeds having set
only the executor fields and logged one line. -/
theorem setupExecutor_cases (c : Collaborators) (app : App) (w : World) :
    NewApp.setupExecutor c app w = (none, w)
    ∨ ∃ app', NewApp.setupExecutor c app w
          = (some app', w.Info ("Loaded " ++ app.conf.Executor ++ " executor"))
        ∧ app'.conf = app.conf ∧ app'.db = app.db ∧ app'.allocator = app.allocator
        ∧ ((app.conf.Executor = "mock"
              ∧ app'.executor = some (.mock mockexec.NewMockExecutor)
              ∧ app'.xo = some mockexec.NewMockExecutor)
          ∨ ((app.conf.Executor = "ssh" ∨ app.conf.Executor = "")
              ∧ ∃ e, c.NewSshExecutor app.conf.SshConfig = some e
                ∧ app'.executor = some (.ssh e) ∧ app'.xo = app.xo)) := by
  by_cases hm : app.conf.Executor = "mock"
  · right
    exact ⟨_, setupExecutor_mock c app w hm, rfl, rfl, rfl, Or.inl ⟨hm, rfl, rfl⟩⟩
  · by_cases hs : app.conf.Executor = "ssh" ∨ app.conf.Executor = ""
    · have h := setupExecutor_ssh c app w hs
      cases he : c.NewSshExecutor app.conf.SshConfig with
      | none =>
        left
        simpa [he] using h
      | some e =>
        right
        refine ⟨{ app with executor := some (.ssh e) }, ?_, rfl, rfl, rfl,
          Or.inr ⟨hs, e, rfl, rfl, rfl⟩⟩
        simpa [he] using h
    · left
      have h2 : app.conf.Executor ≠ "ssh" := fun h => hs (Or.inl h)
      have h3 : app.conf.Executor ≠ "" := fun h => hs (Or.inr h)
      exact setupExecutor_unknown c app w hm h2 h3

theorem open_of_canOpen (d : Disk) (path : String) (hopen : canOpen d path = true) :
    ∃ f0, bolt.Open d path = .ok (⟨path⟩, d.write path f0) ∧ f0.locked = true := by
  unfold canOpen at hopen
  cases hf : d path with
  | none =>
    exact ⟨{ buckets := [], locked := true, valid := true }, by simp [bolt.Open, hf], rfl⟩
  | some f =>
    rw [hf] at hopen
    simp only [Bool.and_eq_true, Bool.not_eq_true'] at hopen
    exact ⟨{ f with locked := true }, by simp [bolt.Open, hf, hopen.1, hopen.2], rfl⟩

theorem open_of_not_canOpen (d : Disk) (path : String) (hopen : canOpen d path = false) :
    ∃ err, bolt.Open d path = .error err := by
  unfold canOpen at hopen
  cases hf : d path with
  | none => simp [hf] at hopen
  | some f =>
    rw [hf] at hopen
    cases hl : f.locked with
    | true => exact ⟨.ErrTimeout, by simp [bolt.Open, hf, hl]⟩
    | false =>
      have hv : f.valid = false := by simpa [hl] using hopen
      exact ⟨.ErrInvalid, by simp [bolt.Open, hf, hl, hv]⟩

/-- The store block, with the file name it settles on made explicit. -/
theorem setupDB_eq (app : App) (w : World) :
    NewApp.setupDB app w
      = match bolt.Open w.disk (storePath app.conf w) with
        | .error _ =>
          (none, ({ w with dbfilename := storePath app.conf w }).LogError
            "Unable to open database")
        | .ok (db, disk) =>
          match db.Update { w with dbfilename := storePath app.conf w, disk := disk }
              NewApp.func1 with
          | (some err, w2) => (none, w2.Err err)
          | (none, w2) => (some { app with db := some db }, w2) := by
  unfold NewApp.setupDB storePath
  by_cases hD : app.conf.DBfile = ""
  · simp only [hD, ne_eq, not_true_eq_false, if_false]
  · simp only [hD, ne_eq, not_false_eq_true, if_true]

/-- The store block on a file that can be opened: it succeeds, the handle is on the chosen
path, the file is left locked with the namespaces present, and the bounds are untouched. -/
theorem setupDB_of_canOpen (app : App) (w : World)
    (hopen : canOpen w.disk (storePath app.conf w) = true) :
    ∃ w' f', NewApp.setupDB app w = (some { app with db := some ⟨storePath app.conf w⟩ }, w')
      ∧ w'.disk (storePath app.conf w) = some f' ∧ f'.locked = true
      ∧ (∀ name ∈ namespaceNames, name ∈ bucketNames f'.buckets)
      ∧ w'.dbfilename = storePath app.conf w
      ∧ w'.BrickMaxNum = w.BrickMaxNum ∧ w'.BrickMaxSize = w.BrickMaxSize
      ∧ w'.BrickMinSize = w.BrickMinSize := by
  obtain ⟨f0, ho, hl⟩ := open_of_canOpen _ _ hopen
  have hu := update_func1 ⟨storePath app.conf w⟩
    { w with dbfilename := storePath app.conf w,
             disk := w.disk.write (storePath app.conf w) f0 } f0 (by simp [Disk.write])
  rw [setupDB_eq, ho]
  simp only [hu]
  refine ⟨_, { f0 with buckets := withNamespaces f0.buckets }, rfl, by simp [Disk.write], hl,
    namespaces_mem_withNamespaces _, rfl, rfl, rfl, rfl⟩

/-- The store block on a file that cannot be opened: it fails, and neither the disk nor
the bounds change. -/
theorem setupDB_of_not_canOpen (app : App) (w : World)
    (hopen : canOpen w.disk (storePath app.conf w) = false) :
    ∃ w', NewApp.setupDB app w = (none, w') ∧ w'.disk = w.disk
      ∧ w'.dbfilename = storePath app.conf w
      ∧ w'.BrickMaxNum = w.BrickMaxNum ∧ w'.BrickMaxSize = w.BrickMaxSize
      ∧ w'.BrickMinSize = w.BrickMinSize := by
  obtain ⟨err, ho⟩ := open_of_not_canOpen _ _ hopen
  rw [setupDB_eq, ho]
  exact ⟨_, rfl, rfl, rfl, rfl, rfl, rfl⟩

/-! ### `NewApp` as the sequence of its blocks -/

theorem newApp_eq (c : Collaborators) (configIo : String) (w : World) (conf : GlusterFSConfig)
    (hconf : c.loadConfiguration configIo = some conf) :
    NewApp c configIo w
      = match NewApp.setupExecutor c (initialApp conf) w with
        | (none, w1) => (none, w1)
        | (some app1, w1) =>
          match NewApp.setupDB app1 w1 with
          | (none, w2) => (none, w2)
          | (some app2, w2) => NewApp.setupAllocator app2 (app2.setAdvSettings w2) := by
  simp only [NewApp, hconf, initialApp]

theorem newApp_of_no_configuration (c : Collaborators) (configIo : String) (w : World)
    (hconf : c.loadConfiguration configIo = none) : NewApp c configIo w = (none, w) := by
  simp only [NewApp, hconf]

/-- When the executor kind is recognized and its executor is built, and the store file can
be opened, `NewApp` gets as far as the allocator block: with the configuration as loaded,
the handle on the chosen path, the file locked, and the bounds as `setAdvSettings` is
about to find them. -/
theorem newApp_reaches_allocator (c : Collaborators) (configIo : String) (w : World)
    (conf : GlusterFSConfig) (hconf : c.loadConfiguration configIo = some conf)
    (hexec : conf.Executor = "mock" ∨ ((conf.Executor = "ssh" ∨ conf.Executor = "")
      ∧ (c.NewSshExecutor conf.SshConfig).isSome = true))
    (hopen : canOpen w.disk (storePath conf w) = true) :
    ∃ app2 w2 f', NewApp c configIo w = NewApp.setupAllocator app2 (app2.setAdvSettings w2)
      ∧ app2.conf = conf ∧ app2.db = some ⟨storePath conf w⟩ ∧ app2.allocator = none
      ∧ ((conf.Executor = "mock" ∧ app2.executor = some (.mock mockexec.NewMockExecutor)
            ∧ app2.xo = some mockexec.NewMockExecutor)
        ∨ ((conf.Executor = "ssh" ∨ conf.Executor = "")
            ∧ ∃ e, c.NewSshExecutor conf.SshConfig = some e
              ∧ app2.executor = some (.ssh e) ∧ app2.xo = none))
      ∧ w2.disk (storePath conf w) = some f' ∧ f'.locked = true
      ∧ w2.dbfilename = storePath conf w
      ∧ w2.BrickMaxNum = w.BrickMaxNum ∧ w2.BrickMaxSize = w.BrickMaxSize
      ∧ w2.BrickMinSize = w.BrickMinSize := by
  rcases setupExecutor_cases c (initialApp conf) w with hE | ⟨app1, hE, hc1, hdb1, hal1, hex1⟩
  · -- the executor block cannot fail under `hexec`
    exfalso
    rcases hexec with hm | ⟨hs, hsome⟩
    · rw [setupExecutor_mock c (initialApp conf) w hm] at hE
      simp at hE
    · rw [setupExecutor_ssh c (initialApp conf) w hs] at hE
      cases he : c.NewSshExecutor conf.SshConfig with
      | none => simp [he] at hsome
      | some e =>
        have he' : c.NewSshExecutor (initialApp conf).conf.SshConfig = some e := he
        simp [he'] at hE
  · have hc1' : app1.conf = conf := hc1
    have hopen1 : canOpen (w.Info ("Loaded " ++ (initialApp conf).conf.Executor
        ++ " executor")).disk (storePath app1.conf
          (w.Info ("Loaded " ++ (initialApp conf).conf.Executor ++ " executor"))) = true := by
      rw [hc1']
      exact hopen
    obtain ⟨w2, f', hD, hdisk, hlock, _, hname, hb1, hb2, hb3⟩ :=
      setupDB_of_canOpen app1 _ hopen1
    have hpath : storePath app1.conf
        (w.Info ("Loaded " ++ (initialApp conf).conf.Executor ++ " executor"))
        = storePath conf w := by
      rw [hc1']
      rfl
    rw [hpath] at hD hdisk hname
    refine ⟨{ app1 with db := some ⟨storePath conf w⟩ }, w2, f', ?_, hc1', rfl, hal1, ?_,
      hdisk, hlock, hname, hb1, hb2, hb3⟩
    · rw [newApp_eq c configIo w conf hconf, hE]
      simp only [hD]
    · rcases hex1 with ⟨hm, he, hx⟩ | ⟨hs, e, he, hx, hxo⟩
      · exact Or.inl ⟨hm, he, hx⟩
      · exact Or.inr ⟨hs, e, he, hx, hxo⟩

theorem setupAllocator_mock (app : App) (w : World) (h : app.conf.Allocator = "mock") :
    NewApp.setupAllocator app w
      = (some { app with allocator := some (.mock app.db) },
         (w.Info ("Loaded " ++ app.conf.Allocator ++ " allocator")).Info
           "GlusterFS Application Loaded") := by
  simp [NewApp.setupAllocator, h, NewMockAllocator]

theorem setupAllocator_simple (app : App) (w : World)
    (h : app.conf.Allocator = "simple" ∨ app.conf.Allocator = "") :
    NewApp.setupAllocator app w
      = (some { app with conf := { app.conf with Allocator := "simple" },
                         allocator := some (.simple app.db) },
         (w.Info "Loaded simple allocator").Info "GlusterFS Application Loaded") := by
  have hm : app.conf.Allocator ≠ "mock" := by
    rcases h with h | h <;> rw [h] <;> decide
  simp [NewApp.setupAllocator, h, hm, NewSimpleAllocatorFromDb]

theorem setupAllocator_unknown (app : App) (w : World) (h1 : app.conf.Allocator ≠ "mock")
    (h2 : app.conf.Allocator ≠ "simple") (h3 : app.conf.Allocator ≠ "") :
    NewApp.setupAllocator app w = (none, w) := by
  simp [NewApp.setupAllocator, h1, h2, h3]

/-- An application that leaves the allocator block has the fields it entered with, but for
the allocator and, where the default was resolved, the allocation kind. -/
theorem setupAllocator_some (app : App) (w : World) (app' : App) (w' : World)
    (h : NewApp.setupAllocator app w = (some app', w')) :
    app'.executor = app.executor ∧ app'.xo = app.xo ∧ app'.db = app.db := by
  by_cases hm : app.conf.Allocator = "mock"
  · rw [setupAllocator_mock app w hm] at h
    obtain ⟨rfl, _⟩ := Prod.mk.inj h |>.imp Option.some.inj id
    exact ⟨rfl, rfl, rfl⟩
  · by_cases hs : app.conf.Allocator = "simple" ∨ app.conf.Allocator = ""
    · rw [setupAllocator_simple app w hs] at h
      obtain ⟨rfl, _⟩ := Prod.mk.inj h |>.imp Option.some.inj id
      exact ⟨rfl, rfl, rfl⟩
    · rw [setupAllocator_unknown app w hm (fun h => hs (Or.inl h))
        (fun h => hs (Or.inr h))] at h
      simp at h

theorem newApp_of_not_canOpen (c : Collaborators) (configIo : String) (w : World)
    (conf : GlusterFSConfig) (hconf : c.loadConfiguration configIo = some conf)
    (hopen : canOpen w.disk (storePath conf w) = false) :
    ∃ w', NewApp c configIo w = (none, w') ∧ w'.disk = w.disk
      ∧ w'.BrickMaxNum = w.BrickMaxNum ∧ w'.BrickMaxSize = w.BrickMaxSize
      ∧ w'.BrickMinSize = w.BrickMinSize := by
  rw [newApp_eq c configIo w conf hconf]
  rcases setupExecutor_cases c (initialApp conf) w with hE | ⟨app1, hE, hc1, _, _, _⟩
  · rw [hE]
    exact ⟨w, rfl, rfl, rfl, rfl, rfl⟩
  · have hc1' : app1.conf = conf := hc1
    have hopen1 : canOpen (w.Info ("Loaded " ++ (initialApp conf).conf.Executor
        ++ " executor")).disk (storePath app1.conf
          (w.Info ("Loaded " ++ (initialApp conf).conf.Executor ++ " executor"))) = false := by
      rw [hc1']
      exact hopen
    obtain ⟨w2, hD, hdisk, _, hb1, hb2, hb3⟩ := setupDB_of_not_canOpen app1 _ hopen1
    rw [hE]
    simp only [hD]
    exact ⟨w2, rfl, hdisk, hb1, hb2, hb3⟩

/-- When the executor kind is unrecognized, or the ssh executor cannot be built, `NewApp`
returns `nil` and leaves the world as it found it. -/
theorem newApp_of_no_executor (c : Collaborators) (configIo : String) (w : World)
    (conf : GlusterFSConfig) (hconf : c.loadConfiguration configIo = some conf)
    (hexec : ¬ (conf.Executor = "mock" ∨ ((conf.Executor = "ssh" ∨ conf.Executor = "")
      ∧ (c.NewSshExecutor conf.SshConfig).isSome = true))) :
    NewApp c configIo w = (none, w) := by
  rw [newApp_eq c configIo w conf hconf]
  rcases setupExecutor_cases c (initialApp conf) w with hE | ⟨app1, _, _, _, _, hex1⟩
  · rw [hE]
  · exfalso
    apply hexec
    rcases hex1 with ⟨hm, _, _⟩ | ⟨hs, e, he, _, _⟩
    · exact Or.inl hm
    · have he' : c.NewSshExecutor conf.SshConfig = some e := he
      exact Or.inr ⟨hs, by simp [he']⟩

/-! ### The backend switches -/

/-- C2: the execution kind is resolved by a closed switch. An unrecognized kind makes
`NewApp` return `nil` (leaving the world untouched); an application that `NewApp` returns
carries the mock executor exactly for kind `"mock"` and the ssh executor built from the
transport sub-record exactly for kind `"ssh"` or `""`; and with a recognized kind whose
executor is built, a recognized allocation kind and a store that can be opened, `NewApp`
does return an application. -/
theorem newApp_executor_switch (c : Collaborators) (configIo : String) (w : World)
    (conf : GlusterFSConfig) (hconf : c.loadConfiguration configIo = some conf) :
    (conf.Executor ≠ "mock" → conf.Executor ≠ "ssh" → conf.Executor ≠ "" →
        NewApp c configIo w = (none, w))
    ∧ (∀ app w', NewApp c configIo w = (some app, w') →
        (conf.Executor = "mock" ∧ app.executor = some (.mock mockexec.NewMockExecutor)
          ∧ app.xo = some mockexec.NewMockExecutor)
        ∨ ((conf.Executor = "ssh" ∨ conf.Executor = "")
          ∧ ∃ e, c.NewSshExecutor conf.SshConfig = some e
            ∧ app.executor = some (.ssh e) ∧ app.xo = none))
    ∧ ((conf.Executor = "mock" ∨ ((conf.Executor = "ssh" ∨ conf.Executor = "")
          ∧ (c.NewSshExecutor conf.SshConfig).isSome = true)) →
        (conf.Allocator = "mock" ∨ conf.Allocator = "simple" ∨ conf.Allocator = "") →
        canOpen w.disk (storePath conf w) = true →
        ∃ app w', NewApp c configIo w = (some app, w')) := by
  refine ⟨?_, ?_, ?_⟩
  · intro h1 h2 h3
    apply newApp_of_no_executor c configIo w conf hconf
    rintro (hm | ⟨hs | he, _⟩)
    · exact h1 hm
    · exact h2 hs
    · exact h3 he
  · intro app w' hnew
    by_cases hexec : conf.Executor = "mock" ∨ ((conf.Executor = "ssh" ∨ conf.Executor = "")
        ∧ (c.NewSshExecutor conf.SshConfig).isSome = true)
    · cases hopen : canOpen w.disk (storePath conf w) with
      | false =>
        obtain ⟨w1, h1, _⟩ := newApp_of_not_canOpen c configIo w conf hconf hopen
        rw [h1] at hnew
        simp at hnew
      | true =>
        obtain ⟨app2, w2, f', h2, _, _, _, hex, _⟩ :=
          newApp_reaches_allocator c configIo w conf hconf hexec hopen
        rw [h2] at hnew
        obtain ⟨he, hx, _⟩ := setupAllocator_some _ _ _ _ hnew
        rw [he, hx]
        exact hex
    · rw [newApp_of_no_executor c configIo w conf hconf hexec] at hnew
      simp at hnew
  · intro hexec halloc hopen
    obtain ⟨app2, w2, f', h2, hc2, _⟩ :=
      newApp_reaches_allocator c configIo w conf hconf hexec hopen
    rw [h2]
    rcases halloc with hm | hs | he
    · exact ⟨_, _, setupAllocator_mock app2 _ (hc2 ▸ hm)⟩
    · exact ⟨_, _, setupAllocator_simple app2 _ (Or.inl (hc2 ▸ hs))⟩
    · exact ⟨_, _, setupAllocator_simple app2 _ (Or.inr (hc2 ▸ he))⟩

theorem newApp_executor_switch_witness :
    ∃ app w', NewApp sampleCollaborators "heketi.json" freshWorld = (some app, w')
      ∧ app.executor = some (.mock mockexec.NewMockExecutor) := by
  have h := newApp_executor_switch sampleCollaborators "heketi.json" freshWorld sampleConf rfl
  obtain ⟨app, w', hnew⟩ := h.2.2 (Or.inl rfl) (by decide) (by decide)
  rcases h.2.1 app w' hnew with ⟨_, he, _⟩ | ⟨hs, _⟩
  · exact ⟨app, w', hnew, he⟩
  · exact absurd hs (by decide)

/-- C3: once the executor is set and the store is open, the allocation kind is resolved by
a closed switch. Kind `"mock"` gives the mock allocator on the store handle and leaves the
configured kind `"mock"`; kind `"simple"` or `""` gives the store-backed allocator on the
store handle and the configuration records `"simple"` afterwards (nothing else in it
changes); any other kind makes `NewApp` return `nil`. -/
theorem newApp_allocator_switch (c : Collaborators) (configIo : String) (w : World)
    (conf : GlusterFSConfig) (hconf : c.loadConfiguration configIo = some conf)
    (hexec : conf.Executor = "mock" ∨ ((conf.Executor = "ssh" ∨ conf.Executor = "")
      ∧ (c.NewSshExecutor conf.SshConfig).isSome = true))
    (hopen : canOpen w.disk (storePath conf w) = true) :
    (conf.Allocator = "mock" →
        ∃ app w', NewApp c configIo w = (some app, w')
          ∧ app.db = some ⟨storePath conf w⟩
          ∧ app.allocator = some (.mock (some ⟨storePath conf w⟩))
          ∧ app.conf.Allocator = "mock" ∧ app.conf = conf)
    ∧ (conf.Allocator = "simple" ∨ conf.Allocator = "" →
        ∃ app w', NewApp c configIo w = (some app, w')
          ∧ app.db = some ⟨storePath conf w⟩
          ∧ app.allocator = some (.simple (some ⟨storePath conf w⟩))
          ∧ app.conf.Allocator = "simple" ∧ app.conf = { conf with Allocator := "simple" })
    ∧ (conf.Allocator ≠ "mock" → conf.Allocator ≠ "simple" → conf.Allocator ≠ "" →
        (NewApp c configIo w).1 = none) := by
  obtain ⟨app2, w2, f', h2, hc2, hdb2, _⟩ :=
    newApp_reaches_allocator c configIo w conf hconf hexec hopen
  rw [h2]
  refine ⟨?_, ?_, ?_⟩
  · intro hm
    refine ⟨_, _, setupAllocator_mock app2 _ (hc2 ▸ hm), hdb2, ?_, ?_, hc2⟩
    · simp [hdb2]
    · simp [hc2, hm]
  · intro hs
    refine ⟨_, _, setupAllocator_simple app2 _ (hc2 ▸ hs), hdb2, ?_, rfl, ?_⟩
    · simp [hdb2]
    · simp [hc2]
  · intro h1 h2' h3
    rw [setupAllocator_unknown app2 _ (hc2 ▸ h1) (hc2 ▸ h2') (hc2 ▸ h3)]

theorem newApp_allocator_switch_witness :
    ∃ app w', NewApp sampleCollaborators "heketi.json" freshWorld = (some app, w')
      ∧ app.db = some ⟨storePath sampleConf freshWorld⟩
      ∧ app.allocator = some (.simple (some ⟨storePath sampleConf freshWorld⟩))
      ∧ app.conf.Allocator = "simple"
      ∧ app.conf = { sampleConf with Allocator := "simple" } :=
  (newApp_allocator_switch sampleCollaborators "heketi.json" freshWorld sampleConf rfl
    (Or.inl rfl) (by decide)).2.1 (Or.inr rfl)

/-! ### Failed construction -/

/-- With an unrecognized allocation kind, `NewApp` returns `nil` only after it has opened
the store: no `Close` is called, the file stays locked, and every later `NewApp` that
opens the same path returns `nil` as well. -/
theorem newApp_unknown_allocator_keeps_lock (c : Collaborators) (configIo : String)
    (w : World) (conf : GlusterFSConfig) (hconf : c.loadConfiguration configIo = some conf)
    (hexec : conf.Executor = "mock" ∨ ((conf.Executor = "ssh" ∨ conf.Executor = "")
      ∧ (c.NewSshExecutor conf.SshConfig).isSome = true))
    (hopen : canOpen w.disk (storePath conf w) = true)
    (h1 : conf.Allocator ≠ "mock") (h2 : conf.Allocator ≠ "simple")
    (h3 : conf.Allocator ≠ "") :
    ∃ w', NewApp c configIo w = (none, w')
      ∧ canOpen w'.disk (storePath conf w) = false
      ∧ ∀ (c2 : Collaborators) (configIo2 : String) (conf2 : GlusterFSConfig),
          c2.loadConfiguration configIo2 = some conf2 →
          storePath conf2 w' = storePath conf w →
          (NewApp c2 configIo2 w').1 = none := by
  obtain ⟨app2, w2, f', hnew, hc2, _, _, _, hdisk, hlock, _⟩ :=
    newApp_reaches_allocator c configIo w conf hconf hexec hopen
  rw [setupAllocator_unknown app2 _ (hc2 ▸ h1) (hc2 ▸ h2) (hc2 ▸ h3)] at hnew
  have hclosed : canOpen (app2.setAdvSettings w2).disk (storePath conf w) = false := by
    rw [(setAdvSettings_disk app2 w2).1]
    simp [canOpen, hdisk, hlock]
  refine ⟨_, hnew, hclosed, ?_⟩
  intro c2 configIo2 conf2 hconf2 hpath
  obtain ⟨w3, h3', _⟩ := newApp_of_not_canOpen c2 configIo2 _ conf2 hconf2
    (by rw [hpath]; exact hclosed)
  rw [h3']

/-- The sibling path: an application that was built and then closed through `App.Close`
leaves a store on which the same configuration builds an application again. -/
theorem newApp_after_close_succeeds :
    ((NewApp sampleCollaborators "heketi.json" freshWorld).1.bind
        (fun app => app.Close (NewApp sampleCollaborators "heketi.json" freshWorld).2)).map
      (fun w => (NewApp sampleCollaborators "heketi.json" w).1.isSome) = some true := by
  decide

/-- C7, at a failing input: on a fresh disk the configuration with allocation kind
`"bogus"` makes `NewApp` return `nil` and leaves `heketi.db` locked, so that the valid
configuration, which builds an application on the fresh disk, gets `nil` on the store the
failed construction left behind. After the failure on the execution kind `"bogus"`, which
returns before the store is opened, the valid configuration does build an application. -/
theorem newApp_bogus_allocator_blocks_valid_retry :
    (NewApp sampleCollaborators "bogus-allocator" freshWorld).1 = none
    ∧ ((NewApp sampleCollaborators "bogus-allocator" freshWorld).2.disk "heketi.db").map
        DBFile.locked = some true
    ∧ (NewApp sampleCollaborators "heketi.json" freshWorld).1.isSome = true
    ∧ (NewApp sampleCollaborators "heketi.json"
        (NewApp sampleCollaborators "bogus-allocator" freshWorld).2).1 = none
    ∧ (NewApp sampleCollaborators "bogus-executor" freshWorld).1 = none
    ∧ (NewApp sampleCollaborators "heketi.json"
        (NewApp sampleCollaborators "bogus-executor" freshWorld).2).1.isSome = true := by
  decide

/-- C10, as stated, fails: the configuration with allocation kind `"bogus"` and
`BrickMaxNum = 5` makes `NewApp` return `nil`, yet the bound `BrickMaxNum`, 200 before the
call, is 5 after it. -/
theorem newApp_failure_changes_bound :
    (NewApp sampleCollaborators "bogus-allocator" freshWorld).1 = none
    ∧ freshWorld.BrickMaxNum = 200
    ∧ (NewApp sampleCollaborators "bogus-allocator" freshWorld).2.BrickMaxNum = 5 := by
  decide

/-- C10, amended: the three bounds after a failed `NewApp`, by the step that fails.
(1) When no configuration is loaded, or the execution kind is unrecognized or its executor
is nil, or the store file cannot be opened, `NewApp` returns `nil` and the bounds hold their
prior values, whatever the allocation kind. (2) When the executor is set, the store can be
opened and the allocation kind is unrecognized, `NewApp` returns `nil` and the bounds hold
the values `setAdvSettings` assigned from the configuration. (3) In the only remaining case,
a recognized allocation kind with the executor set and the store opened, `NewApp` does not
return `nil`. -/
theorem newApp_failure_bounds (c : Collaborators) (configIo : String) (w : World) :
    ((∀ conf, c.loadConfiguration configIo = some conf →
          ¬ (conf.Executor = "mock" ∨ ((conf.Executor = "ssh" ∨ conf.Executor = "")
              ∧ (c.NewSshExecutor conf.SshConfig).isSome = true))
          ∨ canOpen w.disk (storePath conf w) = false) →
        (NewApp c configIo w).1 = none
        ∧ (NewApp c configIo w).2.BrickMaxNum = w.BrickMaxNum
        ∧ (NewApp c configIo w).2.BrickMaxSize = w.BrickMaxSize
        ∧ (NewApp c configIo w).2.BrickMinSize = w.BrickMinSize)
    ∧ (∀ conf, c.loadConfiguration configIo = some conf →
        (conf.Executor = "mock" ∨ ((conf.Executor = "ssh" ∨ conf.Executor = "")
          ∧ (c.NewSshExecutor conf.SshConfig).isSome = true)) →
        canOpen w.disk (storePath conf w) = true →
        conf.Allocator ≠ "mock" → conf.Allocator ≠ "simple" → conf.Allocator ≠ "" →
        (NewApp c configIo w).1 = none
        ∧ ∀ a : App, a.conf = conf →
            (NewApp c configIo w).2.BrickMaxNum = (a.setAdvSettings w).BrickMaxNum
            ∧ (NewApp c configIo w).2.BrickMaxSize = (a.setAdvSettings w).BrickMaxSize
            ∧ (NewApp c configIo w).2.BrickMinSize = (a.setAdvSettings w).BrickMinSize)
    ∧ (∀ conf, c.loadConfiguration configIo = some conf →
        (conf.Executor = "mock" ∨ ((conf.Executor = "ssh" ∨ conf.Executor = "")
          ∧ (c.NewSshExecutor conf.SshConfig).isSome = true)) →
        canOpen w.disk (storePath conf w) = true →
        (conf.Allocator = "mock" ∨ conf.Allocator = "simple" ∨ conf.Allocator = "") →
        (NewApp c configIo w).1.isSome = true) := by
  refine ⟨?_, ?_, ?_⟩
  · intro hearly
    cases hconf : c.loadConfiguration configIo with
    | none =>
      rw [newApp_of_no_configuration c configIo w hconf]
      exact ⟨rfl, rfl, rfl, rfl⟩
    | some conf =>
      rcases hearly conf hconf with hexec | hopen
      · rw [newApp_of_no_executor c configIo w conf hconf hexec]
        exact ⟨rfl, rfl, rfl, rfl⟩
      · obtain ⟨w1, h1, _, hb1, hb2, hb3⟩ :=
          newApp_of_not_canOpen c configIo w conf hconf hopen
        rw [h1]
        exact ⟨rfl, hb1, hb2, hb3⟩
  · intro conf hconf hexec hopen hm h2 h3
    obtain ⟨app2, w2, f', hnew, hc2, _, _, _, _, _, _, hb1, hb2, hb3⟩ :=
      newApp_reaches_allocator c configIo w conf hconf hexec hopen
    rw [hnew, setupAllocator_unknown app2 _ (hc2 ▸ hm) (hc2 ▸ h2) (hc2 ▸ h3)]
    refine ⟨rfl, ?_⟩
    intro a ha
    simp only [setAdvSettings_BrickMaxNum, setAdvSettings_BrickMaxSize,
      setAdvSettings_BrickMinSize, hc2, ha, hb1, hb2, hb3, and_self]
  · intro conf hconf hexec hopen halloc
    obtain ⟨app2, w2, f', hnew, hc2, _⟩ :=
      newApp_reaches_allocator c configIo w conf hconf hexec hopen
    rw [hnew]
    rcases halloc with hm | hs | he
    · rw [setupAllocator_mock app2 _ (hc2 ▸ hm)]
      rfl
    · rw [setupAllocator_simple app2 _ (Or.inl (hc2 ▸ hs))]
      rfl
    · rw [setupAllocator_simple app2 _ (Or.inr (hc2 ▸ he))]
      rfl

/-- The amended C10 at the sample inputs: the allocator failure with `BrickMaxNum = 5`
configured leaves the bound at 5 and the two sizes at their prior values; the executor
failure leaves all three bounds at their prior values. -/
theorem newApp_failure_bounds_witness :
    ((NewApp sampleCollaborators "bogus-allocator" freshWorld).1 = none
      ∧ (NewApp sampleCollaborators "bogus-allocator" freshWorld).2.BrickMaxNum = 5
      ∧ (NewApp sampleCollaborators "bogus-allocator" freshWorld).2.BrickMaxSize
          = freshWorld.BrickMaxSize
      ∧ (NewApp sampleCollaborators "bogus-allocator" freshWorld).2.BrickMinSize
          = freshWorld.BrickMinSize)
    ∧ ((NewApp sampleCollaborators "bogus-executor" freshWorld).1 = none
      ∧ (NewApp sampleCollaborators "bogus-executor" freshWorld).2.BrickMaxNum
          = freshWorld.BrickMaxNum
      ∧ (NewApp sampleCollaborators "bogus-executor" freshWorld).2.BrickMaxSize
          = freshWorld.BrickMaxSize
      ∧ (NewApp sampleCollaborators "bogus-executor" freshWorld).2.BrickMinSize
          = freshWorld.BrickMinSize) := by
  constructor
  · obtain ⟨hnil, hb⟩ :=
      (newApp_failure_bounds sampleCollaborators "bogus-allocator" freshWorld).2.1
        { sampleConf with Allocator := "bogus", BrickMaxNum := 5 } rfl (Or.inl rfl)
        (by decide) (by decide) (by decide) (by decide)
    obtain ⟨h1, h2, h3⟩ := hb
      { sampleApp with conf := { sampleConf with Allocator := "bogus", BrickMaxNum := 5 } } rfl
    exact ⟨hnil, h1.trans (by decide), h2.trans (by decide), h3.trans (by decide)⟩
  · apply (newApp_failure_bounds sampleCollaborators "bogus-executor" freshWorld).1
    intro conf hconf
    left
    have hc : conf = { sampleConf with Executor := "bogus" } := by
      have : sampleCollaborators.loadConfiguration "bogus-executor"
          = some { sampleConf with Executor := "bogus" } := by decide
      rw [this] at hconf
      exact (Option.some.inj hconf).symm
    subst hc
    decide

/-! ### The route table -/

/-- C8, as stated, fails: the table has no list route `GET /nodes` and no list route
`GET /devices`. -/
theorem setRoutes_has_no_node_or_device_list :
    (["GET"], "/nodes") ∉ (sampleApp.SetRoutes []).1.table
    ∧ (["GET"], "/devices") ∉ (sampleApp.SetRoutes []).1.table := by
  decide

theorem routes_independent_of_app (a : App) : a.routes = sampleApp.routes := rfl

/-- C8, amended: `SetRoutes` returns a nil error and adds to the router exactly these
seventeen routes, in this order: `GET /hello`, `GET /queue/{id}`, the four cluster routes,
create, info and delete (no list) for `/nodes` and for `/devices`, and create, info, expand,
delete and list for `/volumes`; and every variable segment of the table is named `id` and
constrained to the pattern `[A-Fa-f0-9]+`. -/
theorem setRoutes_table (a : App) (router : Router) :
    (a.SetRoutes router).2 = none
    ∧ (a.SetRoutes router).1.table = router.table ++
        [ (["GET"], "/hello"),
          (["GET"], "/queue/{id:[A-Fa-f0-9]+}"),
          (["POST"], "/clusters"),
          (["GET"], "/clusters/{id:[A-Fa-f0-9]+}"),
          (["GET"], "/clusters"),
          (["DELETE"], "/clusters/{id:[A-Fa-f0-9]+}"),
          (["POST"], "/nodes"),
          (["GET"], "/nodes/{id:[A-Fa-f0-9]+}"),
          (["DELETE"], "/nodes/{id:[A-Fa-f0-9]+}"),
          (["POST"], "/devices"),
          (["GET"], "/devices/{id:[A-Fa-f0-9]+}"),
          (["DELETE"], "/devices/{id:[A-Fa-f0-9]+}"),
          (["POST"], "/volumes"),
          (["GET"], "/volumes/{id:[A-Fa-f0-9]+}"),
          (["POST"], "/volumes/{id:[A-Fa-f0-9]+}/expand"),
          (["DELETE"], "/volumes/{id:[A-Fa-f0-9]+}"),
          (["GET"], "/volumes") ]
    ∧ (∀ r ∈ a.routes, ∀ seg ∈ pathSegments r.Pattern, isVariable seg = true →
        variableName seg = "id" ∧ variablePattern seg = some "[A-Fa-f0-9]+") := by
  refine ⟨rfl, ?_, ?_⟩
  · have hq : ASYNC_ROUTE ++ "/{id:[A-Fa-f0-9]+}" = "/queue/{id:[A-Fa-f0-9]+}" := by decide
    simp [App.SetRoutes, App.routes, Router.register, Router.table, hq]
  · rw [routes_independent_of_app a]
    decide

end glusterfs
